import Mathlib

/-!
Verification of the FinAgent reconciliation workspace.

This file gives a shallow embedding of the repository's Agent Client
(`services/geminiService.ts`, the variant with the user-settable API key and
the demo mode) and of the Plan Runner and action handlers of
`components/AgentPanel.tsx`, together with theorems about them.

Modelling conventions:
* The hosted model is an external collaborator; the outcome of one
  `ai.models.generateContent` call is a `CallResult` value (the call throws,
  or resolves with an optional `text` field).  Prompt construction is not
  modelled because no output of the embedded functions depends on the prompt.
* JavaScript's `JSON.parse` is modelled by the executable `jsonParse` below
  (objects, arrays, strings with simple escapes, integer numerals, literals).
  `JSON.parse` returns untyped data, so the structured operations return
  `Json`; the typed object literals of the source are encoded as `Json`
  object literals in source field order.
* React state setters and the `onAddLog` / `onUpdateStatus` callbacks of
  `App.tsx` are modelled as explicit updates of a `PanelState` record.
  `App.handleUpdateStatus` rewrites only the `status` field of the selected
  transaction, which is the `tx` field of the state.
* The `id` (`LOG-${Date.now()}`) and `timestamp` fields of audit log entries
  come from the wall clock; they are ambient nondeterminism that no theorem
  below depends on, so `AuditLog` keeps the remaining fields.  The
  `metadata` field models the `content` entry of the source's metadata
  record, when present.
* `await`ed fixed delays (`setTimeout`) are pure timing and have no effect
  on the state, so they are not represented.
-/

namespace FinAgent

/-- Transaction status (`types.ts`). -/
inductive Status where
  | CLEARED
  | FAILED
  | RECTIFYING
  | RECTIFIED
deriving DecidableEq, Repr

/-- Agent roles (`types.ts`); `SYSTEM` carries the string value `AUTO_AGENT`. -/
inductive AgentRole where
  | AUDITOR
  | LIAISON
  | CONTROLLER
  | SYSTEM
deriving DecidableEq, Repr

/-- A transaction record (`types.ts`).  `amount` is a JS number used only for
display and prompt interpolation, never for arithmetic in the embedded code;
it is carried as an `Int` here. -/
structure Transaction where
  id : String
  vendorName : String
  invoiceId : String
  amount : Int
  currency : String
  date : String
  status : Status
  failureReason : Option String
  vendorEmail : String
deriving DecidableEq, Repr

/-- An audit log entry (`types.ts`), without the wall-clock `id`/`timestamp`
fields (see the header comment).  `metadata` is the `content` value of the
source's metadata record, when one is attached. -/
structure AuditLog where
  transactionId : String
  agent : AgentRole
  action : String
  details : String
  metadata : Option String
deriving DecidableEq, Repr

/-- One step of an auto-pilot plan (`types.ts`).  The `action` field is kept
as a raw string: at runtime plan values come from parsed JSON, so the tag is
not restricted to the three known tags. -/
structure PlanStep where
  action : String
  description : String
deriving DecidableEq, Repr

/-- An auto-pilot plan (`types.ts`). -/
structure AutoPilotPlan where
  steps : List PlanStep
  reasoning : String
deriving DecidableEq, Repr

/-- Untyped JSON data, the result type of `JSON.parse`. -/
inductive Json where
  | null
  | bool (b : Bool)
  | num (n : Int)
  | str (s : String)
  | arr (elems : List Json)
  | obj (fields : List (String × Json))

/-- The left-brace character, kept out of character-literal syntax. -/
def lbrace : Char := Char.ofNat 123

/-- The right-brace character. -/
def rbrace : Char := Char.ofNat 125

/-- JSON whitespace. -/
def isWs (c : Char) : Bool := c = ' ' || c = '\n' || c = '\t' || c = '\r'

/-- Drop leading JSON whitespace. -/
def skipWs : List Char → List Char
  | [] => []
  | c :: cs => if isWs c then skipWs cs else c :: cs

/-- Numeric value of a digit character. -/
def digitVal (c : Char) : Nat := c.toNat - 48

/-- Consume a run of digits, accumulating their value. -/
def parseDigits : List Char → Nat → Nat × List Char
  | [], acc => (acc, [])
  | c :: cs, acc =>
    if c.isDigit then parseDigits cs (acc * 10 + digitVal c) else (acc, c :: cs)

/-- Parse an integer numeral with optional leading minus sign. -/
def parseNum (cs : List Char) : Option (Int × List Char) :=
  match cs with
  | '-' :: rest =>
    match rest with
    | c :: _ =>
      if c.isDigit then
        let p := parseDigits rest 0
        some (-(p.1 : Int), p.2)
      else none
    | [] => none
  | c :: _ =>
    if c.isDigit then
      let p := parseDigits cs 0
      some ((p.1 : Int), p.2)
    else none
  | [] => none

/-- Translation of a character following a backslash in a JSON string. -/
def escChar (c : Char) : Char :=
  if c = 'n' then '\n' else if c = 't' then '\t' else if c = 'r' then '\r' else c

/-- Parse the body of a JSON string after the opening quote; returns the
content and the remainder after the closing quote. -/
def parseStrBody : List Char → Option (List Char × List Char)
  | [] => none
  | '"' :: rest => some ([], rest)
  | '\\' :: c :: rest =>
    match parseStrBody rest with
    | some (s, r) => some (escChar c :: s, r)
    | none => none
  | c :: rest =>
    match parseStrBody rest with
    | some (s, r) => some (c :: s, r)
    | none => none

mutual

/-- Parse one JSON value.  Fuel bounds the nesting depth. -/
def parseVal : Nat → List Char → Option (Json × List Char)
  | 0, _ => none
  | fuel + 1, cs =>
    match skipWs cs with
    | [] => none
    | c :: rest =>
      if c = '"' then
        match parseStrBody rest with
        | some (s, r) => some (.str (String.mk s), r)
        | none => none
      else if c = lbrace then
        match skipWs rest with
        | c2 :: r2 =>
          if c2 = rbrace then some (.obj [], r2)
          else
            match parseObjItems fuel (c2 :: r2) with
            | some (fs, r3) => some (.obj fs, r3)
            | none => none
        | [] => none
      else if c = '[' then
        match skipWs rest with
        | ']' :: r2 => some (.arr [], r2)
        | cs2 =>
          match parseArrItems fuel cs2 with
          | some (js, r3) => some (.arr js, r3)
          | none => none
      else if c = 'n' then
        match rest with
        | 'u' :: 'l' :: 'l' :: r => some (.null, r)
        | _ => none
      else if c = 't' then
        match rest with
        | 'r' :: 'u' :: 'e' :: r => some (.bool true, r)
        | _ => none
      else if c = 'f' then
        match rest with
        | 'a' :: 'l' :: 's' :: 'e' :: r => some (.bool false, r)
        | _ => none
      else
        match parseNum (c :: rest) with
        | some (n, r) => some (.num n, r)
        | none => none

/-- Parse a non-empty comma-separated list of array elements up to `]`. -/
def parseArrItems : Nat → List Char → Option (List Json × List Char)
  | 0, _ => none
  | fuel + 1, cs =>
    match parseVal fuel cs with
    | none => none
    | some (j, r) =>
      match skipWs r with
      | ',' :: r2 =>
        match parseArrItems fuel r2 with
        | some (js, r3) => some (j :: js, r3)
        | none => none
      | ']' :: r2 => some ([j], r2)
      | _ => none

/-- Parse a non-empty comma-separated list of object members up to the
closing brace. -/
def parseObjItems : Nat → List Char → Option (List (String × Json) × List Char)
  | 0, _ => none
  | fuel + 1, cs =>
    match skipWs cs with
    | '"' :: r =>
      match parseStrBody r with
      | none => none
      | some (k, r2) =>
        match skipWs r2 with
        | ':' :: r3 =>
          match parseVal fuel r3 with
          | none => none
          | some (v, r4) =>
            match skipWs r4 with
            | ',' :: r5 =>
              match parseObjItems fuel r5 with
              | some (fs, r6) => some ((String.mk k, v) :: fs, r6)
              | none => none
            | c :: r5 => if c = rbrace then some ([(String.mk k, v)], r5) else none
            | [] => none
        | _ => none
    | _ => none

end

/-- Model of `JSON.parse`: `none` means the parse throws. -/
def jsonParse (s : String) : Option Json :=
  match parseVal (s.length + 1) s.data with
  | some (j, rest) => if (skipWs rest).isEmpty then some j else none
  | none => none

/-- JS property access on parsed JSON (`value.key`): `none` models
`undefined`.  `JSON.parse` keeps the last of duplicate keys; no input in this
development produces duplicates, so first-match lookup is used. -/
def jsGet (j : Json) (key : String) : Option Json :=
  match j with
  | .obj fields => fields.lookup key
  | _ => none

mutual

/-- JS string conversion of a value, as used by template-literal
interpolation.  Array element display approximates `Array.prototype.join`;
no embedded code path displays arrays or nested objects. -/
def jsDisplayVal : Json → String
  | .null => "null"
  | .bool true => "true"
  | .bool false => "false"
  | .num n => toString n
  | .str s => s
  | .arr es => String.intercalate "," (jsDisplayList es)
  | .obj _ => "[object Object]"

/-- Display of a list of JSON values. -/
def jsDisplayList : List Json → List String
  | [] => []
  | e :: es => jsDisplayVal e :: jsDisplayList es

end

/-- JS template interpolation of a possibly-`undefined` value. -/
def jsDisplay : Option Json → String
  | none => "undefined"
  | some j => jsDisplayVal j

/-- JS template interpolation of an optional string field
(`undefined` prints as `"undefined"`). -/
def interpOptStr : Option String → String
  | none => "undefined"
  | some s => s

/-- JS truthiness of a string that may be null/undefined:
null, undefined and `""` are falsy. -/
def strTruthy : Option String → Bool
  | none => false
  | some s => decide (s ≠ "")

/-- JS `a || b` on possibly-absent strings. -/
def jsOrOpt (a b : Option String) : Option String :=
  if strTruthy a then a else b

/-- JS `t || d` where `t` is a string-or-undefined and the result is used as
a string. -/
def jsStrOr (t : Option String) (d : String) : String :=
  match t with
  | none => d
  | some s => if s = "" then d else s

/-- JS `String.prototype.includes`. -/
def jsIncludes (s sub : String) : Bool :=
  decide (sub.data <:+: s.data)

/-- The module-level credential state of `geminiService.ts`: the mutable
`userApiKey` variable and the `user_gemini_api_key` localStorage entry. -/
structure KeyState where
  userApiKey : Option String
  storage : Option String
deriving DecidableEq, Repr

/-- Embedding of `setApiKey` (`geminiService.ts`): stores the key in the module variable,
and persists it when truthy, removing the stored entry otherwise. -/
def setApiKey (key : String) (s : KeyState) : KeyState :=
  { userApiKey := some key
    storage := if key = "" then none else some key }

/-- Embedding of `getClient` (`geminiService.ts`): `const key = userApiKey ||
process.env.API_KEY; if (!key) return null; return new GoogleGenAI(...)`.
The result is the API key the constructed client holds; `none` models the
`null` return that routes every operation to its demo branch. -/
def getClient (userApiKey envApiKey : Option String) : Option String :=
  let key := jsOrOpt userApiKey envApiKey
  if strTruthy key then key else none

/-- Outcome of one `ai.models.generateContent` call: the call throws
(network/transport/model error), or resolves with an optional `text`. -/
inductive CallResult where
  | failure
  | success (text : Option String)
deriving DecidableEq, Repr

/-- The demo-mode analysis template of `analyzeFailure`, split at its two
interpolation points. -/
def demoAnalysisPre : String :=
  "## 🟡 DEMO MODE ANALYSIS\n        \n**Note:** Running in simulation mode (No API Key detected).\n\n**Root Cause Analysis:**\nThe transaction failed with error code `"

/-- Demo analysis text between the failure reason and the vendor name. -/
def demoAnalysisMid : String :=
  "`.\nThis typically indicates a mismatch between the entity data stored in the ERP and the details provided by the payment gateway.\n\n**Recommended Actions:**\n1.  **Verify Master Data:** Check vendor ID `"

/-- Demo analysis text after the vendor name. -/
def demoAnalysisPost : String :=
  "` in SAP/Oracle.\n2.  **Contact Vendor:** Request updated banking information via secure channel.\n        "

/-- The demo-mode return value of `analyzeFailure`. -/
def demoAnalysis (tx : Transaction) : String :=
  demoAnalysisPre ++ interpOptStr tx.failureReason ++ demoAnalysisMid
    ++ tx.vendorName ++ demoAnalysisPost

/-- Embedding of `analyzeFailure` (`geminiService.ts`). -/
def analyzeFailure (tx : Transaction) (userApiKey envApiKey : Option String)
    (call : CallResult) : String :=
  match getClient userApiKey envApiKey with
  | none => demoAnalysis tx
  | some _ =>
    match call with
    | .failure => "Error connecting to Auditor Agent. Please check API configuration."
    | .success t => jsStrOr t "Unable to generate analysis."

/-- The demo-mode draft returned by `draftVendorEmail`. -/
def demoDraft (tx : Transaction) : Json :=
  .obj
    [("subject", .str ("Action Required: Payment Issue - Invoice " ++ tx.invoiceId)),
     ("body", .str ("Dear " ++ tx.vendorName
        ++ " Team,\n\nWe attempted to process payment for Invoice "
        ++ tx.invoiceId ++ " on " ++ tx.date
        ++ ", but encountered the following error: \""
        ++ interpOptStr tx.failureReason
        ++ "\".\n\nCould you please verify your banking details on file? We are eager to resolve this immediately.\n\nBest regards,\nAccounts Payable (Demo)"))]

/-- The catch-branch draft of `draftVendorEmail`. -/
def errorDraft : Json :=
  .obj [("subject", .str "Error"), ("body", .str "Could not draft email.")]

/-- The string `"{}"`, the `||`-default applied to the response text before
`JSON.parse` in the structured operations. -/
def emptyObjText : String := "\x7b\x7d"

/-- Embedding of `draftVendorEmail` (`geminiService.ts`). -/
def draftVendorEmail (tx : Transaction) (userApiKey envApiKey : Option String)
    (call : CallResult) : Json :=
  match getClient userApiKey envApiKey with
  | none => demoDraft tx
  | some _ =>
    match call with
    | .failure => errorDraft
    | .success t =>
      match jsonParse (jsStrOr t emptyObjText) with
      | none => errorDraft
      | some j => j

/-- The demo-mode return value of `validateRectification`. -/
def demoValidation : String :=
  "APPROVED: (Demo) The proposed adjustment aligns with standard operating procedures for this error type."

/-- Embedding of `validateRectification` (`geminiService.ts`).  `adjustmentDetails` feeds
only the prompt. -/
def validateRectification (tx : Transaction) (adjustmentDetails : String)
    (userApiKey envApiKey : Option String) (call : CallResult) : String :=
  match getClient userApiKey envApiKey with
  | none => demoValidation
  | some _ =>
    match call with
    | .failure => "Error validating rectification."
    | .success t => jsStrOr t "Validation failed."

/-- The demo-mode return value of `askTransactionQuestion`. -/
def demoAsk : String :=
  "I am currently running in **Demo Mode** because no API Key was provided. \n\nPlease configure your Google Gemini API Key in the settings (gear icon) to enable live chat capabilities."

/-- Embedding of `askTransactionQuestion` (`geminiService.ts`). -/
def askTransactionQuestion (tx : Transaction) (question : String)
    (userApiKey envApiKey : Option String) (call : CallResult) : String :=
  match getClient userApiKey envApiKey with
  | none => demoAsk
  | some _ =>
    match call with
    | .failure => "I'm having trouble connecting to the service right now."
    | .success t => jsStrOr t "I couldn't process that question."

/-- The demo-mode prediction of `predictResolutionLikelihood`. -/
def demoPrediction : Json :=
  .obj
    [("score", .num 85),
     ("label", .str "High"),
     ("rationale", .str "(Demo) High confidence based on historical resolution of similar routing errors.")]

/-- The catch-branch prediction of `predictResolutionLikelihood`. -/
def fallbackPrediction : Json :=
  .obj
    [("score", .num 50),
     ("label", .str "Medium"),
     ("rationale", .str "Estimation unavailable")]

/-- Embedding of `predictResolutionLikelihood` (`geminiService.ts`). -/
def predictResolutionLikelihood (tx : Transaction)
    (userApiKey envApiKey : Option String) (call : CallResult) : Json :=
  match getClient userApiKey envApiKey with
  | none => demoPrediction
  | some _ =>
    match call with
    | .failure => fallbackPrediction
    | .success t =>
      match jsonParse (jsStrOr t emptyObjText) with
      | none => fallbackPrediction
      | some j => j

/-- The demo-mode plan of `generateAutoPilotPlan`, in source field order. -/
def demoPlanJson : Json :=
  .obj
    [("reasoning", .str "(Demo) The system has identified a high-probability resolution path involving vendor outreach and data verification."),
     ("steps", .arr
        [.obj [("action", .str "ANALYZE"),
               ("description", .str "Cross-referencing failure code with vendor master data (Simulated)")],
         .obj [("action", .str "EMAIL_VENDOR"),
               ("description", .str "Generating automated inquiry for updated banking details (Simulated)")],
         .obj [("action", .str "RECTIFY"),
               ("description", .str "Flagging transaction for manual review pending vendor response (Simulated)")]])]

/-- The catch-branch plan of `generateAutoPilotPlan`. -/
def failedPlanJson : Json :=
  .obj [("steps", .arr []), ("reasoning", .str "Failed to generate plan")]

/-- Embedding of `generateAutoPilotPlan` (`geminiService.ts`). -/
def generateAutoPilotPlan (tx : Transaction)
    (userApiKey envApiKey : Option String) (call : CallResult) : Json :=
  match getClient userApiKey envApiKey with
  | none => demoPlanJson
  | some _ =>
    match call with
    | .failure => failedPlanJson
    | .success t =>
      match jsonParse (jsStrOr t emptyObjText) with
      | none => failedPlanJson
      | some j => j

/-- The action labels of the `steps` member of a plan value, for stating
properties of generated plans. -/
def stepsActions (j : Json) : Option (List Json) :=
  match jsGet j "steps" with
  | some (.arr l) => some (l.map (fun s => (jsGet s "action").getD .null))
  | _ => none

/-- The observable state acted on by the `AgentPanel` handlers: the panel's
React state, the selected transaction (whose `status` is the only field
`App.handleUpdateStatus` rewrites), and the append-only audit log. -/
structure PanelState where
  tx : Transaction
  logs : List AuditLog
  loading : Bool
  analysis : Option String
  emailDraft : Option Json
  rectificationNote : String
  autoPilotActive : Bool
  autoPilotPlan : Option AutoPilotPlan
  currentStepIndex : Int

/-- Embedding of `onUpdateStatus` / `App.handleUpdateStatus`: rewrites the selected
transaction's `status` field only. -/
def updateStatus (st : Status) (s : PanelState) : PanelState :=
  { s with tx := { s.tx with status := st } }

/-- Embedding of `onAddLog` / `App.handleAddLog`: appends one entry. -/
def addLog (e : AuditLog) (s : PanelState) : PanelState :=
  { s with logs := s.logs ++ [e] }

/-- The metadata content string `Subject: ...\nBody: ...` built by
`handleDraftEmail` and the EMAIL_VENDOR dispatch from a draft value. -/
def emailMeta (draft : Json) : String :=
  "Subject: " ++ jsDisplay (jsGet draft "subject")
    ++ "\nBody: " ++ jsDisplay (jsGet draft "body")

/-- Embedding of `handleDraftEmail` (`AgentPanel.tsx`): drafts the email, shows it,
unconditionally sets the status to RECTIFYING and appends a LIAISON log
entry.  `call` is the outcome of the model call inside `draftVendorEmail`. -/
def handleDraftEmail (userApiKey envApiKey : Option String) (call : CallResult)
    (s : PanelState) : PanelState :=
  let s1 := { s with loading := true, analysis := none, emailDraft := none }
  let draft := draftVendorEmail s1.tx userApiKey envApiKey call
  let s2 := { s1 with emailDraft := some draft, loading := false }
  let s3 := updateStatus .RECTIFYING s2
  addLog
    { transactionId := s3.tx.id
      agent := .LIAISON
      action := "Drafted Communication"
      details := "Drafted email to vendor regarding exception."
      metadata := some (emailMeta draft) } s3

/-- Embedding of `handleRectify` (`AgentPanel.tsx`): a no-op on an empty note; otherwise
validates the note and either transitions to RECTIFIED with an approval log
entry (clearing the note) or appends a rejection log entry. -/
def handleRectify (userApiKey envApiKey : Option String) (call : CallResult)
    (s : PanelState) : PanelState :=
  if s.rectificationNote = "" then s
  else
    let s1 := { s with loading := true }
    let validation :=
      validateRectification s1.tx s1.rectificationNote userApiKey envApiKey call
    let s2 := { s1 with loading := false }
    if jsIncludes validation "APPROVED" then
      let s3 := updateStatus .RECTIFIED s2
      let s4 := addLog
        { transactionId := s3.tx.id
          agent := .CONTROLLER
          action := "Rectification Approved"
          details := "Correction approved: " ++ s.rectificationNote
            ++ ". Validation: " ++ validation
          metadata := none } s3
      { s4 with rectificationNote := "" }
    else
      addLog
        { transactionId := s2.tx.id
          agent := .CONTROLLER
          action := "Rectification Rejected"
          details := "Correction rejected. Validation: " ++ validation
          metadata := none } s2

/-- One dispatch of the auto-pilot loop body (`handleAutoResolve`): the
branch on `step.action`.  `call` is the outcome of the model call this step
performs, if it performs one. -/
def execStep (userApiKey envApiKey : Option String) (call : CallResult)
    (step : PlanStep) (s : PanelState) : PanelState :=
  if step.action = "ANALYZE" then
    let analysis := analyzeFailure s.tx userApiKey envApiKey call
    let s1 := addLog
      { transactionId := s.tx.id
        agent := .SYSTEM
        action := "Auto-Pilot: Analysis"
        details := step.description
        metadata := some analysis } s
    { s1 with analysis := some analysis }
  else if step.action = "EMAIL_VENDOR" then
    let draft := draftVendorEmail s.tx userApiKey envApiKey call
    let s1 := addLog
      { transactionId := s.tx.id
        agent := .SYSTEM
        action := "Auto-Pilot: Contact"
        details := "Automated vendor outreach initiated based on analysis."
        metadata := some (emailMeta draft) } s
    { s1 with emailDraft := some draft }
  else if step.action = "RECTIFY" then
    let s1 := updateStatus .RECTIFYING s
    addLog
      { transactionId := s1.tx.id
        agent := .SYSTEM
        action := "Auto-Pilot: Status Update"
        details := "Status updated to RECTIFYING pending vendor response."
        metadata := none } s1
  else s

/-- The `for` loop of `handleAutoResolve`: sets the current step index, waits
the fixed delay (pure timing, not represented), dispatches the step, and
advances.  `envs i` is the model-call outcome during step `i`. -/
def runSteps (userApiKey envApiKey : Option String) (envs : Nat → CallResult) :
    List PlanStep → Nat → PanelState → PanelState
  | [], _, s => s
  | step :: rest, i, s =>
    runSteps userApiKey envApiKey envs rest (i + 1)
      (execStep userApiKey envApiKey (envs i) step
        { s with currentStepIndex := (i : Int) })

/-- Embedding of `handleAutoResolve` (`AgentPanel.tsx`): activates auto-pilot, obtains a
plan, executes its steps in order, then clears the loading flag and sets the
step index to the step count.  `plan` is the value the initial
`generateAutoPilotPlan` call resolved to (at runtime an untyped JSON value
assumed to conform to `AutoPilotPlan`, with the step action kept as a raw
string). -/
def handleAutoResolve (userApiKey envApiKey : Option String)
    (plan : AutoPilotPlan) (envs : Nat → CallResult) (s : PanelState) :
    PanelState :=
  let s1 := { s with autoPilotActive := true, loading := true,
                     autoPilotPlan := some plan }
  let s2 := runSteps userApiKey envApiKey envs plan.steps 0 s1
  { s2 with loading := false, currentStepIndex := (plan.steps.length : Int) }

/-- The audit log entry the auto-pilot dispatch of `step` appends, as a
function of the step, the call outcome and the transaction (specification
helper for the Plan Runner theorems; it mirrors `execStep`). -/
def stepLog (userApiKey envApiKey : Option String) (call : CallResult)
    (step : PlanStep) (tx : Transaction) : AuditLog :=
  if step.action = "ANALYZE" then
    { transactionId := tx.id
      agent := .SYSTEM
      action := "Auto-Pilot: Analysis"
      details := step.description
      metadata := some (analyzeFailure tx userApiKey envApiKey call) }
  else if step.action = "EMAIL_VENDOR" then
    { transactionId := tx.id
      agent := .SYSTEM
      action := "Auto-Pilot: Contact"
      details := "Automated vendor outreach initiated based on analysis."
      metadata := some (emailMeta (draftVendorEmail tx userApiKey envApiKey call)) }
  else
    { transactionId := tx.id
      agent := .SYSTEM
      action := "Auto-Pilot: Status Update"
      details := "Status updated to RECTIFYING pending vendor response."
      metadata := none }

/-- The expected log entries for a list of steps starting at index `i`, one
per step in step order. -/
def stepLogs (userApiKey envApiKey : Option String) (envs : Nat → CallResult)
    (tx : Transaction) : List PlanStep → Nat → List AuditLog
  | [], _ => []
  | step :: rest, i =>
    stepLog userApiKey envApiKey (envs i) step tx
      :: stepLogs userApiKey envApiKey envs tx rest (i + 1)

/-- Whether a step dispatches the RECTIFY branch. -/
def isRectifyStep (step : PlanStep) : Bool := step.action = "RECTIFY"

/-- The first seed transaction of `constants.ts` (`TXN-8832-ALPHA`), used as
a concrete input by witnesses. -/
def tx1 : Transaction :=
  { id := "TXN-8832-ALPHA"
    vendorName := "Acme Cloud Services"
    invoiceId := "INV-2024-001"
    amount := 12500
    currency := "USD"
    date := "2024-05-10"
    status := .FAILED
    failureReason := some "FATAL: Routing Number Mismatch"
    vendorEmail := "billing@acmecloud.com" }

/-- A concrete three-step plan carrying the three known action tags, used as
a Plan Runner input by witnesses. -/
def plan3 : AutoPilotPlan :=
  { steps :=
      [{ action := "ANALYZE", description := "Analyze the failure" },
       { action := "EMAIL_VENDOR", description := "Email the vendor" },
       { action := "RECTIFY", description := "Update the status" }]
    reasoning := "three step run" }

/-- A concrete empty plan, used by witnesses. -/
def plan0 : AutoPilotPlan := { steps := [], reasoning := "nothing to do" }

/-- A concrete live response text whose JSON parses to an out-of-range
score. -/
def badScoreText : String :=
  "\x7b\"score\": 500, \"label\": \"High\", \"rationale\": \"r\"\x7d"

/-- A concrete panel state over `tx1` for witnesses. -/
def state1 : PanelState :=
  { tx := tx1
    logs := []
    loading := false
    analysis := none
    emailDraft := none
    rectificationNote := ""
    autoPilotActive := false
    autoPilotPlan := none
    currentStepIndex := -1 }

/-! ### Helper lemmas -/

lemma jsIncludes_five (a p b c2 d : String) :
    jsIncludes (a ++ p ++ b ++ c2 ++ d) p = true := by
  have h : p.data <:+: (a ++ p ++ b ++ c2 ++ d).data := by
    simp only [String.data_append]
    exact ⟨a.data, b.data ++ (c2.data ++ d.data), by simp⟩
  simp [jsIncludes, h]

lemma append_ne_empty (a b : String) (h : a ≠ "") : a ++ b ≠ "" := by
  intro hab
  apply h
  have hd : (a ++ b).data = ([] : List Char) := by rw [hab]
  rw [String.data_append] at hd
  exact String.ext (List.append_eq_nil.mp hd).1

lemma jsStrOr_ne_empty (t : Option String) (d : String) (h : d ≠ "") :
    jsStrOr t d ≠ "" := by
  match t with
  | none => exact h
  | some s =>
    by_cases hs : s = ""
    · simp [jsStrOr, hs, h]
    · simp [jsStrOr, hs]

lemma stepLog_status (uk ek : Option String) (c : CallResult) (step : PlanStep)
    (tx : Transaction) (st : Status) :
    stepLog uk ek c step { tx with status := st } = stepLog uk ek c step tx := rfl

lemma stepLogs_status (uk ek : Option String) (envs : Nat → CallResult)
    (tx : Transaction) (st : Status) :
    ∀ (steps : List PlanStep) (i : Nat),
      stepLogs uk ek envs { tx with status := st } steps i
        = stepLogs uk ek envs tx steps i
  | [], _ => rfl
  | step :: rest, i => by
    rw [stepLogs, stepLogs, stepLog_status,
      stepLogs_status uk ek envs tx st rest (i + 1)]

lemma stepLog_agent (uk ek : Option String) (c : CallResult) (step : PlanStep)
    (tx : Transaction) : (stepLog uk ek c step tx).agent = AgentRole.SYSTEM := by
  by_cases h1 : step.action = "ANALYZE" <;>
    by_cases h2 : step.action = "EMAIL_VENDOR" <;>
      simp [stepLog, h1, h2]

lemma stepLogs_agent (uk ek : Option String) (envs : Nat → CallResult)
    (tx : Transaction) :
    ∀ (steps : List PlanStep) (i : Nat),
      ∀ e ∈ stepLogs uk ek envs tx steps i, e.agent = AgentRole.SYSTEM
  | [], _ => by simp [stepLogs]
  | step :: rest, i => by
    intro e he
    rw [stepLogs] at he
    rcases List.mem_cons.mp he with h | h
    · rw [h]; exact stepLog_agent uk ek (envs i) step tx
    · exact stepLogs_agent uk ek envs tx rest (i + 1) e h

lemma stepLogs_length (uk ek : Option String) (envs : Nat → CallResult)
    (tx : Transaction) :
    ∀ (steps : List PlanStep) (i : Nat),
      (stepLogs uk ek envs tx steps i).length = steps.length
  | [], _ => rfl
  | step :: rest, i => by
    rw [stepLogs, List.length_cons, List.length_cons,
      stepLogs_length uk ek envs tx rest (i + 1)]

lemma runSteps_logs (uk ek : Option String) (envs : Nat → CallResult) :
    ∀ (steps : List PlanStep) (i : Nat) (s : PanelState),
      (∀ st ∈ steps, st.action = "ANALYZE" ∨ st.action = "EMAIL_VENDOR"
          ∨ st.action = "RECTIFY") →
      (runSteps uk ek envs steps i s).logs
        = s.logs ++ stepLogs uk ek envs s.tx steps i
  | [], i, s, _ => by simp [runSteps, stepLogs]
  | step :: rest, i, s, h => by
    have hrest : ∀ st ∈ rest, st.action = "ANALYZE" ∨ st.action = "EMAIL_VENDOR"
        ∨ st.action = "RECTIFY" := fun st hst => h st (List.mem_cons_of_mem _ hst)
    rw [runSteps, runSteps_logs uk ek envs rest (i + 1) _ hrest]
    rcases h step (List.mem_cons_self _ _) with h1 | h1 | h1
    · simp [execStep, h1, addLog, stepLogs, stepLog]
    · simp [execStep, h1, addLog, stepLogs, stepLog]
    · simp [execStep, h1, addLog, updateStatus, stepLogs, stepLog, stepLogs_status]

lemma runSteps_status (uk ek : Option String) (envs : Nat → CallResult) :
    ∀ (steps : List PlanStep) (i : Nat) (s : PanelState),
      (runSteps uk ek envs steps i s).tx.status
        = if steps.any isRectifyStep then Status.RECTIFYING else s.tx.status
  | [], _, _ => by simp [runSteps]
  | step :: rest, i, s => by
    rw [runSteps, runSteps_status uk ek envs rest (i + 1) _]
    by_cases hr : step.action = "RECTIFY"
    · have hh : (step :: rest).any isRectifyStep = true := by
        simp [isRectifyStep, hr]
      rw [hh]
      by_cases hrest : rest.any isRectifyStep = true <;>
        simp [hrest, execStep, hr, addLog, updateStatus]
    · have hh : (step :: rest).any isRectifyStep = rest.any isRectifyStep := by
        simp [isRectifyStep, hr]
      rw [hh]
      by_cases h1 : step.action = "ANALYZE" <;>
        by_cases h2 : step.action = "EMAIL_VENDOR" <;>
          simp [execStep, h1, h2, hr, addLog]

lemma runSteps_append (uk ek : Option String) (envs : Nat → CallResult) :
    ∀ (a b : List PlanStep) (i : Nat) (s : PanelState),
      runSteps uk ek envs (a ++ b) i s
        = runSteps uk ek envs b (i + a.length) (runSteps uk ek envs a i s)
  | [], b, i, s => by simp [runSteps]
  | step :: rest, b, i, s => by
    rw [List.cons_append, runSteps, runSteps,
      runSteps_append uk ek envs rest b (i + 1)]
    have hlen : i + 1 + rest.length = i + (step :: rest).length := by
      simp; omega
    rw [hlen]

/-! ### Claim theorems -/

/-- C1: for every plan whose steps all carry one of the three known action
tags, executing the Plan Runner on a plan with N steps appends exactly N
audit log entries tagged with the SYSTEM agent role — the appended suffix is
the list of per-step expected entries, one per step in step order 0..N-1 —
and finishes with the current step index equal to N. -/
theorem autoResolve_logs_per_step (uk ek : Option String)
    (plan : AutoPilotPlan) (envs : Nat → CallResult) (s : PanelState)
    (h : ∀ st ∈ plan.steps, st.action = "ANALYZE" ∨ st.action = "EMAIL_VENDOR"
        ∨ st.action = "RECTIFY") :
    (handleAutoResolve uk ek plan envs s).logs
      = s.logs ++ stepLogs uk ek envs s.tx plan.steps 0
    ∧ (stepLogs uk ek envs s.tx plan.steps 0).length = plan.steps.length
    ∧ (∀ e ∈ stepLogs uk ek envs s.tx plan.steps 0, e.agent = AgentRole.SYSTEM)
    ∧ (handleAutoResolve uk ek plan envs s).currentStepIndex
        = (plan.steps.length : Int) := by
  refine ⟨?_, stepLogs_length uk ek envs s.tx plan.steps 0,
    fun e he => stepLogs_agent uk ek envs s.tx plan.steps 0 e he, rfl⟩
  exact runSteps_logs uk ek envs plan.steps 0
    { s with autoPilotActive := true, loading := true, autoPilotPlan := some plan } h

/-- Witness for C1 at a concrete three-step plan. -/
theorem autoResolve_logs_per_step_witness :
    (∀ st ∈ plan3.steps, st.action = "ANALYZE" ∨ st.action = "EMAIL_VENDOR"
        ∨ st.action = "RECTIFY")
    ∧ ((handleAutoResolve none none plan3 (fun _ => CallResult.failure) state1).logs
        = state1.logs
          ++ stepLogs none none (fun _ => CallResult.failure) state1.tx plan3.steps 0
      ∧ (stepLogs none none (fun _ => CallResult.failure) state1.tx plan3.steps 0).length
          = plan3.steps.length
      ∧ (∀ e ∈ stepLogs none none (fun _ => CallResult.failure) state1.tx plan3.steps 0,
          e.agent = AgentRole.SYSTEM)
      ∧ (handleAutoResolve none none plan3 (fun _ => CallResult.failure) state1).currentStepIndex
          = (plan3.steps.length : Int)) :=
  ⟨by decide,
   autoResolve_logs_per_step none none plan3 (fun _ => CallResult.failure) state1 (by decide)⟩
/-- C7: when the plan obtained at the start of an auto-pilot run has zero
steps, the run completes immediately: no audit log entries are appended, the
transaction (in particular its status) is untouched, the analysis and email
draft views are untouched, the loading flag ends cleared, and the final step
index equals 0. -/
theorem autoResolve_empty_plan (uk ek : Option String) (plan : AutoPilotPlan)
    (envs : Nat → CallResult) (s : PanelState) (h : plan.steps = []) :
    (handleAutoResolve uk ek plan envs s).logs = s.logs
    ∧ (handleAutoResolve uk ek plan envs s).tx = s.tx
    ∧ (handleAutoResolve uk ek plan envs s).analysis = s.analysis
    ∧ (handleAutoResolve uk ek plan envs s).emailDraft = s.emailDraft
    ∧ (handleAutoResolve uk ek plan envs s).loading = false
    ∧ (handleAutoResolve uk ek plan envs s).currentStepIndex = 0 := by
  refine ⟨?_, ?_, ?_, ?_, ?_, ?_⟩ <;> simp [handleAutoResolve, h, runSteps]

/-- Witness for C7 at a concrete empty plan. -/
theorem autoResolve_empty_plan_witness :
    plan0.steps = []
    ∧ ((handleAutoResolve none none plan0 (fun _ => CallResult.failure) state1).logs
        = state1.logs
      ∧ (handleAutoResolve none none plan0 (fun _ => CallResult.failure) state1).tx
        = state1.tx
      ∧ (handleAutoResolve none none plan0 (fun _ => CallResult.failure) state1).analysis
        = state1.analysis
      ∧ (handleAutoResolve none none plan0 (fun _ => CallResult.failure) state1).emailDraft
        = state1.emailDraft
      ∧ (handleAutoResolve none none plan0 (fun _ => CallResult.failure) state1).loading
        = false
      ∧ (handleAutoResolve none none plan0 (fun _ => CallResult.failure) state1).currentStepIndex
        = 0) :=
  ⟨rfl, autoResolve_empty_plan none none plan0 (fun _ => CallResult.failure) state1 rfl⟩

/-- C10: the Plan Runner never writes RECTIFIED or CLEARED: after a run the
status is RECTIFYING when some step is a RECTIFY step and unchanged
otherwise (first conjunct); the same holds at every intermediate point of
the run, since the state after the first k dispatches is the run of
`plan.steps.take k` (second conjunct), as the decomposition in the third
conjunct shows. -/
theorem autoResolve_status_writes (uk ek : Option String)
    (plan : AutoPilotPlan) (envs : Nat → CallResult) (s : PanelState) :
    (handleAutoResolve uk ek plan envs s).tx.status
      = (if plan.steps.any isRectifyStep then Status.RECTIFYING else s.tx.status)
    ∧ (∀ k : Nat,
        (runSteps uk ek envs (plan.steps.take k) 0
            { s with autoPilotActive := true, loading := true,
                     autoPilotPlan := some plan }).tx.status
          = (if (plan.steps.take k).any isRectifyStep then Status.RECTIFYING
             else s.tx.status))
    ∧ (∀ k : Nat,
        runSteps uk ek envs plan.steps 0
            { s with autoPilotActive := true, loading := true,
                     autoPilotPlan := some plan }
          = runSteps uk ek envs (plan.steps.drop k) ((plan.steps.take k).length)
              (runSteps uk ek envs (plan.steps.take k) 0
                { s with autoPilotActive := true, loading := true,
                         autoPilotPlan := some plan })) := by
  refine ⟨?_, ?_, ?_⟩
  · exact runSteps_status uk ek envs plan.steps 0
      { s with autoPilotActive := true, loading := true, autoPilotPlan := some plan }
  · intro k
    exact runSteps_status uk ek envs (plan.steps.take k) 0
      { s with autoPilotActive := true, loading := true, autoPilotPlan := some plan }
  · intro k
    have hsplit := runSteps_append uk ek envs (plan.steps.take k) (plan.steps.drop k) 0
      { s with autoPilotActive := true, loading := true, autoPilotPlan := some plan }
    rw [List.take_append_drop] at hsplit
    rw [hsplit]
    norm_num

/-- C4: with a non-empty rectification note, the rectification flow sets the
status to RECTIFIED exactly when the string returned by
`validateRectification` contains the substring APPROVED; any other content
leaves the transaction unchanged and appends a rejection log entry; in
particular a live call failure (whose return is the error string) causes no
status transition. -/
theorem handleRectify_spec (uk ek : Option String) (c : CallResult)
    (s : PanelState) (h : s.rectificationNote ≠ "") :
    ((handleRectify uk ek c s).tx.status
      = (if jsIncludes (validateRectification s.tx s.rectificationNote uk ek c)
              "APPROVED"
         then Status.RECTIFIED else s.tx.status))
    ∧ (jsIncludes (validateRectification s.tx s.rectificationNote uk ek c)
          "APPROVED" = true →
        (handleRectify uk ek c s).tx = { s.tx with status := Status.RECTIFIED })
    ∧ (jsIncludes (validateRectification s.tx s.rectificationNote uk ek c)
          "APPROVED" = false →
        (handleRectify uk ek c s).tx = s.tx
        ∧ (handleRectify uk ek c s).logs = s.logs ++
            [{ transactionId := s.tx.id
               agent := .CONTROLLER
               action := "Rectification Rejected"
               details := "Correction rejected. Validation: "
                 ++ validateRectification s.tx s.rectificationNote uk ek c
               metadata := none }])
    ∧ (getClient uk ek ≠ none → c = .failure →
        (handleRectify uk ek c s).tx = s.tx) := by
  by_cases happr : jsIncludes (validateRectification s.tx s.rectificationNote uk ek c)
      "APPROVED" = true
  · refine ⟨?_, fun _ => ?_, fun hf => ?_, fun hgc hc => ?_⟩
    · simp [handleRectify, h, happr, updateStatus, addLog]
    · simp [handleRectify, h, happr, updateStatus, addLog]
    · rw [happr] at hf; exact absurd hf (by decide)
    · exfalso
      rcases hgcs : getClient uk ek with _ | k
      · exact hgc hgcs
      · subst hc
        have hv : validateRectification s.tx s.rectificationNote uk ek .failure
            = "Error validating rectification." := by
          simp [validateRectification, hgcs]
        rw [hv] at happr
        have : jsIncludes "Error validating rectification." "APPROVED" = false := by
          decide
        rw [this] at happr
        exact Bool.false_ne_true happr
  · have hf : jsIncludes (validateRectification s.tx s.rectificationNote uk ek c)
        "APPROVED" = false := by
      simpa using happr
    refine ⟨?_, fun ht => ?_, fun _ => ⟨?_, ?_⟩, fun _ _ => ?_⟩
    · simp [handleRectify, h, hf, addLog]
    · rw [ht] at hf; exact absurd hf (by decide)
    · simp [handleRectify, h, hf, addLog]
    · simp [handleRectify, h, hf, addLog]
    · simp [handleRectify, h, hf, addLog]

/-- Witness for C4: in demo mode the validation string starts with APPROVED
and the flow transitions a RECTIFYING transaction to RECTIFIED. -/
theorem handleRectify_spec_witness :
    ({ state1 with rectificationNote := "Corrected routing number to 021000021" }
        : PanelState).rectificationNote ≠ ""
    ∧ (((handleRectify none none CallResult.failure
          { state1 with rectificationNote := "Corrected routing number to 021000021" }).tx.status
      = (if jsIncludes (validateRectification
            { state1 with rectificationNote := "Corrected routing number to 021000021" }.tx
            { state1 with rectificationNote := "Corrected routing number to 021000021" }.rectificationNote
            none none CallResult.failure) "APPROVED"
         then Status.RECTIFIED
         else { state1 with rectificationNote := "Corrected routing number to 021000021" }.tx.status))
    ∧ (jsIncludes (validateRectification
          { state1 with rectificationNote := "Corrected routing number to 021000021" }.tx
          { state1 with rectificationNote := "Corrected routing number to 021000021" }.rectificationNote
          none none CallResult.failure) "APPROVED" = true →
        (handleRectify none none CallResult.failure
            { state1 with rectificationNote := "Corrected routing number to 021000021" }).tx
          = { { state1 with rectificationNote := "Corrected routing number to 021000021" }.tx
                with status := Status.RECTIFIED })
    ∧ (jsIncludes (validateRectification
          { state1 with rectificationNote := "Corrected routing number to 021000021" }.tx
          { state1 with rectificationNote := "Corrected routing number to 021000021" }.rectificationNote
          none none CallResult.failure) "APPROVED" = false →
        (handleRectify none none CallResult.failure
            { state1 with rectificationNote := "Corrected routing number to 021000021" }).tx
          = { state1 with rectificationNote := "Corrected routing number to 021000021" }.tx
        ∧ (handleRectify none none CallResult.failure
            { state1 with rectificationNote := "Corrected routing number to 021000021" }).logs
          = { state1 with rectificationNote := "Corrected routing number to 021000021" }.logs ++
            [{ transactionId := { state1 with rectificationNote := "Corrected routing number to 021000021" }.tx.id
               agent := .CONTROLLER
               action := "Rectification Rejected"
               details := "Correction rejected. Validation: "
                 ++ validateRectification
                     { state1 with rectificationNote := "Corrected routing number to 021000021" }.tx
                     { state1 with rectificationNote := "Corrected routing number to 021000021" }.rectificationNote
                     none none CallResult.failure
               metadata := none }])
    ∧ (getClient none none ≠ none → CallResult.failure = CallResult.failure →
        (handleRectify none none CallResult.failure
            { state1 with rectificationNote := "Corrected routing number to 021000021" }).tx
          = { state1 with rectificationNote := "Corrected routing number to 021000021" }.tx)) :=
  ⟨by decide,
   handleRectify_spec none none CallResult.failure
     { state1 with rectificationNote := "Corrected routing number to 021000021" } (by decide)⟩

/-- C5: the user-configured runtime credential, when non-empty, takes
priority over the environment credential; with only the environment
credential present that one is used; with neither, `getClient` yields no
client and every Agent Client operation takes its demo branch, independent
of any call outcome; and `setApiKey` installs the runtime credential. -/
theorem credential_resolution (uk ek : Option String) :
    (∀ k : String, uk = some k → k ≠ "" → getClient uk ek = some k)
    ∧ (strTruthy uk = false → strTruthy ek = true → getClient uk ek = ek)
    ∧ (strTruthy uk = false → strTruthy ek = false →
        getClient uk ek = none
        ∧ (∀ tx c, analyzeFailure tx uk ek c = demoAnalysis tx)
        ∧ (∀ tx c, draftVendorEmail tx uk ek c = demoDraft tx)
        ∧ (∀ tx note c, validateRectification tx note uk ek c = demoValidation)
        ∧ (∀ tx q c, askTransactionQuestion tx q uk ek c = demoAsk)
        ∧ (∀ tx c, predictResolutionLikelihood tx uk ek c = demoPrediction)
        ∧ (∀ tx c, generateAutoPilotPlan tx uk ek c = demoPlanJson))
    ∧ (∀ (k : String) (ks : KeyState), (setApiKey k ks).userApiKey = some k) := by
  refine ⟨?_, ?_, ?_, fun k ks => rfl⟩
  · intro k hk hke
    subst hk
    simp [getClient, jsOrOpt, strTruthy, hke]
  · intro h1 h2
    simp [getClient, jsOrOpt, h1, h2]
  · intro h1 h2
    have hgc : getClient uk ek = none := by
      simp [getClient, jsOrOpt, h1, h2]
    exact ⟨hgc,
      fun tx c => by simp [analyzeFailure, hgc],
      fun tx c => by simp [draftVendorEmail, hgc],
      fun tx note c => by simp [validateRectification, hgc],
      fun tx q c => by simp [askTransactionQuestion, hgc],
      fun tx c => by simp [predictResolutionLikelihood, hgc],
      fun tx c => by simp [generateAutoPilotPlan, hgc]⟩

/-- Witness for C5: a non-empty user key wins over a present environment
key. -/
theorem credential_resolution_witness :
    (some "user-key" : Option String) = some "user-key"
    ∧ ("user-key" : String) ≠ ""
    ∧ getClient (some "user-key") (some "env-key") = some "user-key" :=
  ⟨rfl, by decide,
   (credential_resolution (some "user-key") (some "env-key")).1 "user-key" rfl (by decide)⟩
/-- C2 (amended): in demo mode `draftVendorEmail` returns the templated
draft, which has string `subject` and `body` fields; in live mode a call
error or a `JSON.parse` error yields exactly
`{subject: "Error", body: "Could not draft email."}`; but a live response
that parses as JSON is returned verbatim, so a parsable response of the
wrong shape (such as an empty response, treated as `"{}"`) yields an object
without those fields. -/
theorem draftVendorEmail_spec (tx : Transaction) (uk ek : Option String)
    (c : CallResult) :
    (getClient uk ek = none →
      draftVendorEmail tx uk ek c = demoDraft tx
      ∧ jsGet (demoDraft tx) "subject"
          = some (.str ("Action Required: Payment Issue - Invoice " ++ tx.invoiceId))
      ∧ (∃ b : String, jsGet (demoDraft tx) "body" = some (.str b)))
    ∧ (getClient uk ek ≠ none → c = .failure →
        draftVendorEmail tx uk ek c
          = .obj [("subject", .str "Error"), ("body", .str "Could not draft email.")])
    ∧ (∀ t, getClient uk ek ≠ none → c = .success t →
        jsonParse (jsStrOr t emptyObjText) = none →
        draftVendorEmail tx uk ek c
          = .obj [("subject", .str "Error"), ("body", .str "Could not draft email.")])
    ∧ (∀ t j, getClient uk ek ≠ none → c = .success t →
        jsonParse (jsStrOr t emptyObjText) = some j →
        draftVendorEmail tx uk ek c = j) := by
  refine ⟨fun hgc => ⟨by simp [draftVendorEmail, hgc], rfl, ⟨_, rfl⟩⟩, ?_, ?_, ?_⟩
  · intro hgc hc
    rcases hgcs : getClient uk ek with _ | k
    · exact absurd hgcs hgc
    · subst hc
      simp [draftVendorEmail, hgcs, errorDraft]
  · intro t hgc hc hparse
    rcases hgcs : getClient uk ek with _ | k
    · exact absurd hgcs hgc
    · subst hc
      simp [draftVendorEmail, hgcs, hparse, errorDraft]
  · intro t j hgc hc hparse
    rcases hgcs : getClient uk ek with _ | k
    · exact absurd hgcs hgc
    · subst hc
      simp [draftVendorEmail, hgcs, hparse]

/-- Witness for the amended C2: a live call error yields the exact error
draft. -/
theorem draftVendorEmail_spec_witness :
    getClient (some "api-key") none ≠ none
    ∧ draftVendorEmail tx1 (some "api-key") none CallResult.failure
        = .obj [("subject", .str "Error"), ("body", .str "Could not draft email.")] :=
  ⟨by decide,
   (draftVendorEmail_spec tx1 (some "api-key") none CallResult.failure).2.1
     (by decide) rfl⟩

/-- C2 counterexample: in live mode an empty model response is defaulted to
`"{}"`, which parses, so `draftVendorEmail` returns `{}` — an object with
neither a `subject` nor a `body` field, refuting the claimed
well-formedness. -/
theorem draftVendorEmail_counterexample :
    draftVendorEmail tx1 (some "api-key") none (.success none) = Json.obj []
    ∧ jsGet (draftVendorEmail tx1 (some "api-key") none (.success none)) "subject"
        = none
    ∧ jsGet (draftVendorEmail tx1 (some "api-key") none (.success none)) "body"
        = none :=
  ⟨rfl, rfl, rfl⟩

/-- C3 (amended): `predictResolutionLikelihood` returns the demo prediction
in demo mode and exactly `{score: 50, label: "Medium", rationale:
"Estimation unavailable"}` when the live call or its `JSON.parse` fails; but
a live response that parses as JSON is returned verbatim without range or
label validation. -/
theorem predictResolutionLikelihood_spec (tx : Transaction)
    (uk ek : Option String) (c : CallResult) :
    (getClient uk ek = none → predictResolutionLikelihood tx uk ek c = demoPrediction)
    ∧ (getClient uk ek ≠ none → c = .failure →
        predictResolutionLikelihood tx uk ek c
          = .obj [("score", .num 50), ("label", .str "Medium"),
                  ("rationale", .str "Estimation unavailable")])
    ∧ (∀ t, getClient uk ek ≠ none → c = .success t →
        jsonParse (jsStrOr t emptyObjText) = none →
        predictResolutionLikelihood tx uk ek c
          = .obj [("score", .num 50), ("label", .str "Medium"),
                  ("rationale", .str "Estimation unavailable")])
    ∧ (∀ t j, getClient uk ek ≠ none → c = .success t →
        jsonParse (jsStrOr t emptyObjText) = some j →
        predictResolutionLikelihood tx uk ek c = j) := by
  refine ⟨fun hgc => by simp [predictResolutionLikelihood, hgc], ?_, ?_, ?_⟩
  · intro hgc hc
    rcases hgcs : getClient uk ek with _ | k
    · exact absurd hgcs hgc
    · subst hc
      simp [predictResolutionLikelihood, hgcs, fallbackPrediction]
  · intro t hgc hc hparse
    rcases hgcs : getClient uk ek with _ | k
    · exact absurd hgcs hgc
    · subst hc
      simp [predictResolutionLikelihood, hgcs, hparse, fallbackPrediction]
  · intro t j hgc hc hparse
    rcases hgcs : getClient uk ek with _ | k
    · exact absurd hgcs hgc
    · subst hc
      simp [predictResolutionLikelihood, hgcs, hparse]

/-- Witness for the amended C3: a live call failure yields exactly the
`{score: 50, label: "Medium"}` fallback. -/
theorem predictResolutionLikelihood_spec_witness :
    getClient (some "api-key") none ≠ none
    ∧ predictResolutionLikelihood tx1 (some "api-key") none CallResult.failure
        = .obj [("score", .num 50), ("label", .str "Medium"),
                ("rationale", .str "Estimation unavailable")] :=
  ⟨by decide,
   (predictResolutionLikelihood_spec tx1 (some "api-key") none CallResult.failure).2.1
     (by decide) rfl⟩

/-- C3 counterexample: a live response parsing to `{"score": 500, ...}` is
returned verbatim, so the result's score lies outside [0, 100]. -/
theorem predictResolutionLikelihood_counterexample :
    jsGet (predictResolutionLikelihood tx1 (some "api-key") none
        (.success (some badScoreText))) "score" = some (Json.num 500)
    ∧ ¬ ((500 : Int) ≤ 100) :=
  ⟨rfl, by decide⟩

/-- C6: in demo mode `generateAutoPilotPlan` returns the canned plan, whose
`steps` member has exactly three entries with actions
[ANALYZE, EMAIL_VENDOR, RECTIFY] in that order; in live mode a call error or
a parse error yields exactly `{steps: [], reasoning: "Failed to generate
plan"}`. -/
theorem generateAutoPilotPlan_spec (tx : Transaction) (uk ek : Option String)
    (c : CallResult) :
    (getClient uk ek = none →
      generateAutoPilotPlan tx uk ek c = demoPlanJson
      ∧ stepsActions demoPlanJson
          = some [Json.str "ANALYZE", Json.str "EMAIL_VENDOR", Json.str "RECTIFY"])
    ∧ (getClient uk ek ≠ none → c = .failure →
        generateAutoPilotPlan tx uk ek c
          = .obj [("steps", .arr []), ("reasoning", .str "Failed to generate plan")])
    ∧ (∀ t, getClient uk ek ≠ none → c = .success t →
        jsonParse (jsStrOr t emptyObjText) = none →
        generateAutoPilotPlan tx uk ek c
          = .obj [("steps", .arr []), ("reasoning", .str "Failed to generate plan")]) := by
  refine ⟨fun hgc => ⟨by simp [generateAutoPilotPlan, hgc], rfl⟩, ?_, ?_⟩
  · intro hgc hc
    rcases hgcs : getClient uk ek with _ | k
    · exact absurd hgcs hgc
    · subst hc
      simp [generateAutoPilotPlan, hgcs, failedPlanJson]
  · intro t hgc hc hparse
    rcases hgcs : getClient uk ek with _ | k
    · exact absurd hgcs hgc
    · subst hc
      simp [generateAutoPilotPlan, hgcs, hparse, failedPlanJson]

/-- Witness for C6 in demo mode. -/
theorem generateAutoPilotPlan_spec_witness :
    getClient none none = none
    ∧ (generateAutoPilotPlan tx1 none none CallResult.failure = demoPlanJson
      ∧ stepsActions demoPlanJson
          = some [Json.str "ANALYZE", Json.str "EMAIL_VENDOR", Json.str "RECTIFY"]) :=
  ⟨rfl, (generateAutoPilotPlan_spec tx1 none none CallResult.failure).1 rfl⟩

/-- C8: `analyzeFailure` returns a non-empty string for every transaction,
credential configuration and call outcome; and for a FAILED transaction with
failure reason "FATAL: Routing Number Mismatch" the no-credential result
contains that literal failure reason. -/
theorem analyzeFailure_spec :
    (∀ (tx : Transaction) (uk ek : Option String) (c : CallResult),
      analyzeFailure tx uk ek c ≠ "")
    ∧ (∀ (tx : Transaction) (c : CallResult), tx.status = Status.FAILED →
        tx.failureReason = some "FATAL: Routing Number Mismatch" →
        jsIncludes (analyzeFailure tx none none c) "FATAL: Routing Number Mismatch"
          = true) := by
  constructor
  · intro tx uk ek c
    rcases hgc : getClient uk ek with _ | k
    · simp only [analyzeFailure, hgc, demoAnalysis]
      exact append_ne_empty _ _ (append_ne_empty _ _ (append_ne_empty _ _
        (append_ne_empty _ _ (by decide))))
    · cases c with
      | failure => simp only [analyzeFailure, hgc]; decide
      | success t =>
        simp only [analyzeFailure, hgc]
        exact jsStrOr_ne_empty t _ (by decide)
  · intro tx c _ hfr
    have h0 : analyzeFailure tx none none c = demoAnalysis tx := rfl
    rw [h0, demoAnalysis, hfr]
    simp only [interpOptStr]
    exact jsIncludes_five _ _ _ _ _

/-- Witness for C8 at the seed transaction `TXN-8832-ALPHA`. -/
theorem analyzeFailure_spec_witness :
    tx1.status = Status.FAILED
    ∧ tx1.failureReason = some "FATAL: Routing Number Mismatch"
    ∧ jsIncludes (analyzeFailure tx1 none none CallResult.failure)
        "FATAL: Routing Number Mismatch" = true :=
  ⟨rfl, rfl, analyzeFailure_spec.2 tx1 CallResult.failure rfl rfl⟩

/-- C9: the Contact Vendor flow unconditionally sets the selected
transaction's status to RECTIFYING — for every call outcome, including the
one producing the error-fallback draft — changes no other transaction
field, records the draft, and appends one LIAISON log entry. -/
theorem handleDraftEmail_spec (uk ek : Option String) (c : CallResult)
    (s : PanelState) :
    (handleDraftEmail uk ek c s).tx = { s.tx with status := Status.RECTIFYING }
    ∧ (handleDraftEmail uk ek c s).emailDraft
        = some (draftVendorEmail s.tx uk ek c)
    ∧ (handleDraftEmail uk ek c s).logs = s.logs ++
        [{ transactionId := s.tx.id
           agent := .LIAISON
           action := "Drafted Communication"
           details := "Drafted email to vendor regarding exception."
           metadata := some (emailMeta (draftVendorEmail s.tx uk ek c)) }] :=
  ⟨rfl, rfl, rfl⟩

end FinAgent
